import Mathlib

/-!
Verification of the real-time audio buffering and playback-state layer of
the metahuman-streams repository (`basereal.py`, `baseasr.py`).

The embedding is shallow: Python dictionaries become association lists with
Python's assignment semantics (update in place, else append), numpy slices
become `drop`/`take` on lists (which truncate at the end of the buffer just
as numpy does), queue timeouts become "the queue is empty", and exceptions
become `Option`/`none`.  PCM samples are abstracted as integers; decoded
image frames as naturals.
-/

/-- Association-list lookup, modelling Python `d[k]` read access
(first binding wins; our dictionaries never hold duplicate keys). -/
def dlookup {α : Type} (k : Nat) : List (Nat × α) → Option α
  | [] => none
  | p :: rest => if p.1 = k then some p.2 else dlookup k rest

/-- Association-list assignment, modelling Python `d[k] = v`:
replace the existing binding in place, else append a new one. -/
def dset {α : Type} (k : Nat) (v : α) : List (Nat × α) → List (Nat × α)
  | [] => [(k, v)]
  | p :: rest => if p.1 = k then (k, v) :: rest else p :: dset k v rest

/-- One custom-content configuration item handed to `BaseReal.__loadcustom`.
The filesystem is external, so the outcome of each I/O step is part of the
spec item: `imgLoad` is the result of globbing, numerically sorting and
decoding the image directory (`none` = an exception was raised there), and
`audioLoad` is the result of `sf.read` on the audio path (`none` = raised). -/
structure CustomSpec where
  audiotype : Nat
  imgLoad : Option (List Nat)
  audioLoad : Option (List Int)
  deriving DecidableEq, Repr

/-- The mutable state of a `BaseReal` instance (`basereal.py`):
`chunk` samples per 20 ms chunk, the playback state
(0 = inference, 1 = silence, > 1 = custom), and the five per-custom-id
dictionaries. -/
structure BaseRealState where
  chunk : Nat
  curr_state : Nat
  custom_img_cycle : List (Nat × List Nat)
  custom_audio_cycle : List (Nat × List Int)
  custom_audio_index : List (Nat × Nat)
  custom_index : List (Nat × Nat)
  custom_opt : List (Nat × CustomSpec)
  deriving DecidableEq, Repr

/-- `BaseReal.mirror_index`: ping-pong index for looping image sequences. -/
def mirror_index (size index : Nat) : Nat :=
  let turn := index / size
  let res := index % size
  if turn % 2 = 0 then res else size - res - 1

/-- `BaseReal.get_audio_stream`: slice `chunk` samples of the custom buffer
at the cursor (truncating at the end, as numpy slicing does), advance the
cursor by `chunk`, and switch `curr_state` to silence (1) once the advanced
cursor reaches or passes the end of the buffer.  `none` models the
`KeyError` Python raises when `audiotype` is not registered. -/
def get_audio_stream (s : BaseRealState) (audiotype : Nat) :
    Option (List Int × BaseRealState) :=
  match dlookup audiotype s.custom_audio_index,
        dlookup audiotype s.custom_audio_cycle with
  | some idx, some buf =>
    let stream := (buf.drop idx).take s.chunk
    let newIdx := idx + s.chunk
    let s1 := { s with custom_audio_index := dset audiotype newIdx s.custom_audio_index }
    some (stream, if buf.length ≤ newIdx then { s1 with curr_state := 1 } else s1)
  | _, _ => none

/-- `BaseReal.set_curr_state`: set the playback state to `audiotype`; when
`reinit` is true, additionally zero that id's audio and image cursors
(Python dict assignment, which silently creates the keys if absent). -/
def set_curr_state (s : BaseRealState) (audiotype : Nat) (reinit : Bool) :
    BaseRealState :=
  let s1 := { s with curr_state := audiotype }
  if reinit then
    { s1 with custom_audio_index := dset audiotype 0 s1.custom_audio_index,
              custom_index := dset audiotype 0 s1.custom_index }
  else s1

/-- `BaseReal.init_customindex`: reset the playback state to inference (0)
and zero every registered audio and image cursor. -/
def init_customindex (s : BaseRealState) : BaseRealState :=
  { s with curr_state := 0,
           custom_audio_index := s.custom_audio_index.map (fun p => (p.1, 0)),
           custom_index := s.custom_index.map (fun p => (p.1, 0)) }

/-- The state of a fresh `BaseReal` right before `__loadcustom` runs:
all five custom dictionaries empty, playback state inference. -/
def emptyReal (c : Nat) : BaseRealState :=
  { chunk := c, curr_state := 0, custom_img_cycle := [],
    custom_audio_cycle := [], custom_audio_index := [],
    custom_index := [], custom_opt := [] }

/-- One iteration of the loop in `BaseReal.__loadcustom`, for a single spec
item, with the `try`/`except` around it: image loading happens first and
assigns the images dictionary; only then is the audio read, and only on its
success are the audio buffer, both cursors and the options registered.  An
exception at any point is caught (logged) and the iteration ends there. -/
def loadOne (s : BaseRealState) (item : CustomSpec) : BaseRealState :=
  match item.imgLoad with
  | none => s
  | some imgs =>
    let s1 := { s with custom_img_cycle := dset item.audiotype imgs s.custom_img_cycle }
    match item.audioLoad with
    | none => s1
    | some buf =>
      { s1 with
        custom_audio_cycle := dset item.audiotype buf s1.custom_audio_cycle,
        custom_audio_index := dset item.audiotype 0 s1.custom_audio_index,
        custom_index := dset item.audiotype 0 s1.custom_index,
        custom_opt := dset item.audiotype item s1.custom_opt }

/-- `BaseReal.__loadcustom`: fold `loadOne` over the configured spec list.
Total: a failing item never aborts the loop or raises to the caller. -/
def loadcustom (s : BaseRealState) (specs : List CustomSpec) : BaseRealState :=
  specs.foldl loadOne s

/-- The TTS engines `BaseReal.__init__` can construct. -/
inductive TTSKind where
  | edgetts
  | voits
  | xtts
  deriving DecidableEq, Repr

/-- The TTS dispatch at the top of `BaseReal.__init__`: the three known
engine names construct, anything else raises `ValueError` with a
descriptive message. -/
def initTTS (tts : String) : Except String TTSKind :=
  if tts = "edgetts" then Except.ok TTSKind.edgetts
  else if tts = "gpt-sovits" then Except.ok TTSKind.voits
  else if tts = "xtts" then Except.ok TTSKind.xtts
  else Except.error ("Unknown TTS type: " ++ tts ++ ". Supported types: edgetts, gpt-sovits, xtts")

/-- The mutable state of a `BaseASR` instance (`baseasr.py`): the inbound
chunk queue, the outbound `(chunk, type)` queue, the frames buffer and the
construction-time parameters. -/
structure BaseASRState where
  chunk : Nat
  batch_size : Nat
  stride_left_size : Nat
  stride_right_size : Nat
  queue : List (List Int)
  output_queue : List (List Int × Nat)
  frames : List (List Int)
  deriving DecidableEq, Repr

/-- A `BaseASR` together with its optional parent `BaseReal`
(`self.parent`, may be `None`). -/
structure SysState where
  asr : BaseASRState
  parent : Option BaseRealState
  deriving DecidableEq, Repr

/-- `BaseASR.get_audio_frame`: dequeue an inbound chunk if one is available
within the timeout (modelled: the queue is non-empty) and tag it 0;
otherwise, if there is a parent whose `curr_state` is a custom source
(> 1), delegate to `get_audio_stream` and tag the frame with
`self.parent.curr_state` as read *after* that call — which has already
mutated it to 1 when this retrieval exhausted the clip (`none` models the
`KeyError` that would propagate for an unregistered id); otherwise return
a zero-filled chunk tagged 1 (silence). -/
def get_audio_frame (s : SysState) : Option ((List Int × Nat) × SysState) :=
  match s.asr.queue with
  | f :: rest => some ((f, 0), { s with asr := { s.asr with queue := rest } })
  | [] =>
    match s.parent with
    | some p =>
      if 1 < p.curr_state then
        match get_audio_stream p p.curr_state with
        | some (frame, p1) => some ((frame, p1.curr_state), { s with parent := some p1 })
        | none => none
      else some ((List.replicate s.asr.chunk 0, 1), s)
    | none => some ((List.replicate s.asr.chunk 0, 1), s)

/-- `BaseASR.pause_talk`: clear the inbound queue, touching nothing else. -/
def pause_talk (s : SysState) : SysState :=
  { s with asr := { s.asr with queue := [] } }

/-- The first loop of `BaseASR.warm_up`: pull `n` chunks through
`get_audio_frame`, appending each to `frames` and publishing each
`(chunk, type)` pair on `output_queue`. -/
def warm_up_fill : Nat → SysState → Option SysState
  | 0, s => some s
  | n + 1, s =>
    match get_audio_frame s with
    | none => none
    | some r =>
      warm_up_fill n
        { r.2 with asr := { r.2.asr with
            frames := r.2.asr.frames ++ [r.1.1],
            output_queue := r.2.asr.output_queue ++ [r.1] } }

/-- The second loop of `BaseASR.warm_up`: drain `n` pairs from the front of
`output_queue`; `none` models blocking forever on an empty queue. -/
def drainOutput : Nat → SysState → Option SysState
  | 0, s => some s
  | n + 1, s =>
    match s.asr.output_queue with
    | [] => none
    | _ :: rest => drainOutput n { s with asr := { s.asr with output_queue := rest } }

/-- `BaseASR.warm_up`: fill `stride_left_size + stride_right_size` chunks,
then drain `stride_left_size` pairs from the output queue. -/
def warm_up (s : SysState) : Option SysState :=
  match warm_up_fill (s.asr.stride_left_size + s.asr.stride_right_size) s with
  | none => none
  | some s1 => drainOutput s.asr.stride_left_size s1

/-- Run `k` successive calls of `get_audio_stream` for the id `id`,
collecting the returned chunks in order. -/
def streamCalls (id : Nat) : Nat → BaseRealState → Option (List (List Int) × BaseRealState)
  | 0, s => some ([], s)
  | k + 1, s =>
    match get_audio_stream s id with
    | none => none
    | some (ch, s1) =>
      match streamCalls id k s1 with
      | none => none
      | some (chs, s2) => some (ch :: chs, s2)

/-! ### Association-list lemmas -/

theorem dlookup_dset_self {α : Type} (k : Nat) (v : α) (d : List (Nat × α)) :
    dlookup k (dset k v d) = some v := by
  induction d with
  | nil => simp [dset, dlookup]
  | cons p rest ih =>
    by_cases h : p.1 = k
    · simp [dset, dlookup, h]
    · simp [dset, dlookup, h, ih]

theorem dlookup_dset_ne {α : Type} (k k' : Nat) (v : α) (d : List (Nat × α))
    (h : k' ≠ k) : dlookup k' (dset k v d) = dlookup k' d := by
  have hk : ¬ k = k' := fun hh => h hh.symm
  induction d with
  | nil => simp [dset, dlookup, hk]
  | cons p rest ih =>
    by_cases hp : p.1 = k
    · simp [dset, dlookup, hp, hk]
    · by_cases hp' : p.1 = k'
      · simp [dset, dlookup, hp, hp', h]
      · simp [dset, dlookup, hp, hp', ih]

/-! ### A step lemma for `get_audio_stream` -/

theorem audio_stream_step (s : BaseRealState) (id v : Nat) (buf : List Int)
    (hv : dlookup id s.custom_audio_index = some v)
    (hb : dlookup id s.custom_audio_cycle = some buf) :
    ∃ s', get_audio_stream s id = some ((buf.drop v).take s.chunk, s') ∧
      dlookup id s'.custom_audio_index = some (v + s.chunk) ∧
      (∀ k, k ≠ id → dlookup k s'.custom_audio_index = dlookup k s.custom_audio_index) ∧
      s'.custom_audio_cycle = s.custom_audio_cycle ∧
      s'.custom_img_cycle = s.custom_img_cycle ∧
      s'.custom_index = s.custom_index ∧
      s'.custom_opt = s.custom_opt ∧
      s'.chunk = s.chunk ∧
      s'.curr_state = (if buf.length ≤ v + s.chunk then 1 else s.curr_state) := by
  unfold get_audio_stream
  rw [hv, hb]
  by_cases hle : buf.length ≤ v + s.chunk
  · simp only [if_pos hle]
    refine ⟨_, rfl, ?_, ?_, rfl, rfl, rfl, rfl, rfl, ?_⟩
    · exact dlookup_dset_self _ _ _
    · intro k hk
      exact dlookup_dset_ne _ _ _ _ hk
    · simp [hle]
  · simp only [if_neg hle]
    refine ⟨_, rfl, ?_, ?_, rfl, rfl, rfl, rfl, rfl, ?_⟩
    · exact dlookup_dset_self _ _ _
    · intro k hk
      exact dlookup_dset_ne _ _ _ _ hk
    · simp [hle]

/-! ### C3: mirror_index -/

/-- C3: for `size > 0` and any `index`, `mirror_index size index` equals
`index % size` when `index / size` is even and `size - index % size - 1`
otherwise; it always lies in `[0, size)`; and the generated sequence is the
ping-pong palindrome: it is the identity on the first ramp (`index < size`),
reverses on the second ramp (`size + rem` maps to `size - 1 - rem`), and is
periodic with period `2 * size`. -/
theorem C3_mirror_index_pingpong (size index : Nat) (hsize : 0 < size) :
    mirror_index size index =
      (if (index / size) % 2 = 0 then index % size else size - index % size - 1) ∧
    mirror_index size index < size ∧
    (index < size → mirror_index size index = index) ∧
    mirror_index size (size + index % size) = size - 1 - index % size ∧
    mirror_index size (index + 2 * size) = mirror_index size index := by
  have hmod : index % size < size := Nat.mod_lt _ hsize
  refine ⟨rfl, ?_, ?_, ?_, ?_⟩
  · unfold mirror_index
    by_cases h : (index / size) % 2 = 0 <;> simp [h] <;> omega
  · intro h
    unfold mirror_index
    simp [Nat.div_eq_of_lt h, Nat.mod_eq_of_lt h]
  · unfold mirror_index
    have h1 : (size + index % size) / size = 1 := by
      rw [Nat.add_comm, Nat.add_div_right _ hsize, Nat.div_eq_of_lt hmod]
    have h2 : (size + index % size) % size = index % size := by
      rw [Nat.add_mod_left, Nat.mod_eq_of_lt hmod]
    rw [h1, h2]
    simp
    omega
  · have h1 : (index + 2 * size) / size = index / size + 2 := by
      rw [Nat.mul_comm, Nat.add_mul_div_left _ _ hsize]
    have h2 : (index + 2 * size) % size = index % size := by
      rw [Nat.mul_comm, Nat.add_mul_mod_self_left]
    have h3 : (index / size + 2) % 2 = (index / size) % 2 := Nat.add_mod_right _ _
    simp only [mirror_index, h1, h2, h3]

/-- Witness for C3 at `size = 3`, `index = 7`. -/
theorem C3_mirror_index_pingpong_witness :
    (0 : Nat) < 3 ∧
    (mirror_index 3 7 =
      (if (7 / 3) % 2 = 0 then 7 % 3 else 3 - 7 % 3 - 1) ∧
    mirror_index 3 7 < 3 ∧
    ((7 : Nat) < 3 → mirror_index 3 7 = 7) ∧
    mirror_index 3 (3 + 7 % 3) = 3 - 1 - 7 % 3 ∧
    mirror_index 3 (7 + 2 * 3) = mirror_index 3 7) :=
  ⟨by decide, C3_mirror_index_pingpong 3 7 (by decide)⟩

/-! ### C6: reset idempotence -/

/-- C6: `init_customindex` is idempotent — applying it twice yields exactly
the state of applying it once — and the resulting state has playback state
`Inference` (0) and every registered audio and image cursor equal to 0. -/
theorem C6_init_customindex_idempotent (s : BaseRealState) :
    init_customindex (init_customindex s) = init_customindex s ∧
    (init_customindex s).curr_state = 0 ∧
    (init_customindex s).custom_audio_index.map Prod.snd
      = List.replicate s.custom_audio_index.length 0 ∧
    (init_customindex s).custom_index.map Prod.snd
      = List.replicate s.custom_index.length 0 := by
  have hmap : ∀ (d : List (Nat × Nat)),
      (d.map (fun p => (p.1, (0 : Nat)))).map (fun p => (p.1, (0 : Nat)))
        = d.map (fun p => (p.1, (0 : Nat))) := by
    intro d
    induction d with
    | nil => rfl
    | cons p rest ih => simp [ih]
  have hsnd : ∀ (d : List (Nat × Nat)),
      (d.map (fun p => (p.1, (0 : Nat)))).map Prod.snd
        = List.replicate d.length 0 := by
    intro d
    induction d with
    | nil => rfl
    | cons p rest ih => simp [ih, List.replicate_succ]
  refine ⟨?_, rfl, hsnd _, hsnd _⟩
  simp only [init_customindex]
  rw [hmap, hmap]

/-! ### Iterating `get_audio_stream` -/

theorem streamCalls_spec (id : Nat) (k : Nat) :
    ∀ (s : BaseRealState) (v : Nat) (buf : List Int),
    dlookup id s.custom_audio_index = some v →
    dlookup id s.custom_audio_cycle = some buf →
    ∃ s', streamCalls id k s =
        some ((List.range k).map (fun j => (buf.drop (v + j * s.chunk)).take s.chunk), s') ∧
      dlookup id s'.custom_audio_index = some (v + k * s.chunk) ∧
      s'.custom_audio_cycle = s.custom_audio_cycle ∧
      s'.chunk = s.chunk ∧
      s'.curr_state = (if k = 0 then s.curr_state
        else if buf.length ≤ v + k * s.chunk then 1 else s.curr_state) := by
  induction k with
  | zero =>
    intro s v buf hv hb
    exact ⟨s, by simp [streamCalls], by simpa using hv, rfl, rfl, by simp⟩
  | succ k ih =>
    intro s v buf hv hb
    obtain ⟨s1, heq, hv1, hne1, hcyc1, himg1, hidx1, hopt1, hchunk1, hstate1⟩ :=
      audio_stream_step s id v buf hv hb
    have hb1 : dlookup id s1.custom_audio_cycle = some buf := by
      rw [hcyc1]; exact hb
    obtain ⟨s2, hrun, hv2, hcyc2, hchunk2, hstate2⟩ := ih s1 (v + s.chunk) buf hv1 hb1
    rw [hchunk1] at hrun hv2 hstate2
    have harg : ∀ j : Nat, v + (j + 1) * s.chunk = v + s.chunk + j * s.chunk := by
      intro j; ring
    have hlist : (List.range (k + 1)).map
          (fun j => (buf.drop (v + j * s.chunk)).take s.chunk)
        = (buf.drop v).take s.chunk ::
          (List.range k).map (fun j => (buf.drop (v + s.chunk + j * s.chunk)).take s.chunk) := by
      rw [List.range_succ_eq_map, List.map_cons, List.map_map]
      simp [Function.comp, harg]
    refine ⟨s2, ?_, ?_, hcyc2.trans hcyc1, hchunk2.trans hchunk1, ?_⟩
    · simp only [streamCalls, heq, hrun, hlist]
    · rw [hv2]
      congr 1
      ring
    · by_cases hk : k = 0
      · subst hk
        rw [if_pos rfl] at hstate2
        rw [hstate2, hstate1]
        simp
      · rw [if_neg hk] at hstate2
        have hm : v + (k + 1) * s.chunk = v + s.chunk + k * s.chunk := by ring
        rw [hstate2, if_neg (Nat.succ_ne_zero k), hm]
        by_cases hL : buf.length ≤ v + s.chunk + k * s.chunk
        · rw [if_pos hL, if_pos hL]
        · rw [if_neg hL, if_neg hL, hstate1]
          have hnc : ¬ buf.length ≤ v + s.chunk := by
            intro hc
            exact hL (le_trans hc (Nat.le_add_right _ _))
          rw [if_neg hnc]

/-! ### C1: custom-source exhaustion -/

/-- A concrete `BaseReal` state: custom source 2 has a 5-sample audio
buffer, the chunk length is 3 and the audio cursor is 0, so
`ceil(L/c) = ceil(5/3) = 2`. -/
def c1state : BaseRealState :=
  { chunk := 3, curr_state := 2, custom_img_cycle := [],
    custom_audio_cycle := [(2, [10, 11, 12, 13, 14])],
    custom_audio_index := [(2, 0)], custom_index := [(2, 0)], custom_opt := [] }

/-- C1 counterexample: on `c1state` (`L = 5`, `c = 3`, cursor 0), after
`ceil(L/c) = 2` calls of `get_audio_stream` the state does become Silence,
but the final returned chunk has length `2`, not the chunk length `3`:
the slice `audioSamples[3:6]` truncates at the end of the buffer and is
never zero-padded, refuting the claim that the final chunk has length `c`. -/
theorem C1_zero_padding_counterexample :
    (streamCalls 2 2 c1state).map
        (fun r => (r.1.getLast?.map List.length, r.2.curr_state))
      = some (some 2, 1) ∧ c1state.chunk = 3 ∧ (2 : Nat) ≠ 3 := by
  decide

/-- C1 (amended): for a registered custom source with buffer length
`L ≥ 1`, chunk length `c ≥ 1` and audio cursor 0, after exactly
`n = ceil(L/c)` calls of `get_audio_stream` the playback state is
Silence (1) — and not before: fewer calls leave it unchanged — and the
final returned chunk consists of the remaining `L - (n-1)·c` samples of
the buffer (at most `c`): it is truncated, not zero-padded, when `c` does
not divide `L`. -/
theorem C1_custom_exhaustion (s : BaseRealState) (id c L n : Nat) (buf : List Int)
    (hv : dlookup id s.custom_audio_index = some 0)
    (hb : dlookup id s.custom_audio_cycle = some buf)
    (hc : s.chunk = c) (hL : buf.length = L)
    (hc1 : 1 ≤ c) (hL1 : 1 ≤ L)
    (hn : n = (L + c - 1) / c) :
    ((streamCalls id n s).map (fun r => (r.1.getLast?, r.2.curr_state))
        = some (some ((buf.drop ((n - 1) * c)).take c), 1) ∧
      ((buf.drop ((n - 1) * c)).take c).length = L - (n - 1) * c ∧
      L - (n - 1) * c ≤ c) ∧
    (∀ k chs s'', k < n → streamCalls id k s = some (chs, s'') →
      s''.curr_state = s.curr_state) := by
  have hc0 : 0 < c := hc1
  have hdm := Nat.div_add_mod (L + c - 1) c
  have hmlt : (L + c - 1) % c < c := Nat.mod_lt _ hc0
  rw [← hn] at hdm
  rw [Nat.mul_comm c n] at hdm
  have hn1 : 1 ≤ n := by
    rcases Nat.eq_zero_or_pos n with h0 | h1
    · rw [h0] at hdm
      simp at hdm
      omega
    · exact h1
  have hA : L ≤ n * c := by omega
  have hsub : (n - 1) * c = n * c - c := by
    rw [Nat.sub_mul, Nat.one_mul]
  have hB : (n - 1) * c < L := by
    rw [hsub]
    omega
  have hlen : ((buf.drop ((n - 1) * c)).take c).length = L - (n - 1) * c := by
    rw [List.length_take, List.length_drop, hL, hsub]
    omega
  have hle : L - (n - 1) * c ≤ c := by
    rw [hsub]
    omega
  obtain ⟨s', hrun, hv', hcyc', hchunk', hstate'⟩ :=
    streamCalls_spec id n s 0 buf hv hb
  rw [hc] at hrun hstate'
  have hs1 : s'.curr_state = 1 := by
    rw [hstate', if_neg (by omega), if_pos (by rw [hL]; omega)]
  have hnsucc : n = (n - 1) + 1 := by omega
  have hlast : (((List.range n).map
        (fun j => (buf.drop (0 + j * c)).take c)).getLast?)
      = some ((buf.drop ((n - 1) * c)).take c) := by
    conv_lhs => rw [hnsucc]
    rw [List.range_succ, List.map_append, List.map_singleton,
      List.getLast?_append_cons, Nat.zero_add]
    rfl
  constructor
  · refine ⟨?_, hlen, hle⟩
    rw [hrun]
    simp only [Option.map_some']
    rw [hlast, hs1]
  · intro k chs s'' hk hrunk
    obtain ⟨t, hrunt, hvt, hcyct, hchunkt, hstatet⟩ :=
      streamCalls_spec id k s 0 buf hv hb
    rw [hc] at hrunt hstatet
    rw [hrunt] at hrunk
    have hst : s'' = t := by
      injection hrunk with h1
      exact (congrArg Prod.snd h1).symm
    subst hst
    by_cases hk0 : k = 0
    · rw [hstatet, if_pos hk0]
    · have hkc : k * c ≤ (n - 1) * c := Nat.mul_le_mul_right c (by omega)
      have hcond : ¬ (buf.length ≤ 0 + k * c) := by
        rw [hL]
        omega
      rw [hstatet, if_neg hk0, if_neg hcond]

/-- Witness for the amended C1 on `c1state`: `L = 5`, `c = 3`,
`n = ceil(5/3) = 2`. -/
theorem C1_custom_exhaustion_witness :
    (streamCalls 2 2 c1state).map (fun r => (r.1.getLast?, r.2.curr_state))
        = some (some ((([10, 11, 12, 13, 14] : List Int).drop ((2 - 1) * 3)).take 3), 1) ∧
      ((([10, 11, 12, 13, 14] : List Int).drop ((2 - 1) * 3)).take 3).length = 5 - (2 - 1) * 3 ∧
      5 - (2 - 1) * 3 ≤ 3 :=
  (C1_custom_exhaustion c1state 2 3 5 2 [10, 11, 12, 13, 14]
    (by decide) (by decide) rfl rfl (by decide) (by decide) (by decide)).1

/-! ### C4: the audio cursor bound -/

/-- A concrete `BaseReal` state for C4: custom source 2 has a 5-sample
buffer, chunk length 3, audio cursor 0. -/
def c4state : BaseRealState :=
  { chunk := 3, curr_state := 2, custom_img_cycle := [],
    custom_audio_cycle := [(2, [20, 21, 22, 23, 24])],
    custom_audio_index := [(2, 0)], custom_index := [(2, 0)], custom_opt := [] }

/-- C4 counterexample: starting from cursor 0 on a 5-sample clip with chunk
length 3, two `get_audio_stream` calls leave the cursor at `6 > 5`: the
cursor is advanced by the full chunk length unconditionally, so it does
exceed the clip length, refuting the "never exceeds" invariant. -/
theorem C4_cursor_counterexample :
    (streamCalls 2 2 c4state).map (fun r => dlookup 2 r.2.custom_audio_index)
      = some (some 6) ∧
    (dlookup 2 c4state.custom_audio_cycle).map List.length = some 5 ∧
    ¬ ((6 : Nat) ≤ 5) := by
  decide

/-- C4 (amended): each retrieval advances the cursor by exactly the chunk
length — so it is strictly increasing and may overshoot the clip length by
up to one chunk — and the transition is deterministic: whenever the
advanced cursor reaches or passes the end of the clip the state becomes
Silence (1), and otherwise the state is unchanged; the returned chunk
starts at the previous cursor, so no audio sample is ever replayed. -/
theorem C4_cursor_advance (s : BaseRealState) (id v : Nat) (buf : List Int)
    (hv : dlookup id s.custom_audio_index = some v)
    (hb : dlookup id s.custom_audio_cycle = some buf) :
    (get_audio_stream s id).map (fun r => (r.1, dlookup id r.2.custom_audio_index))
      = some ((buf.drop v).take s.chunk, some (v + s.chunk)) ∧
    (buf.length ≤ v + s.chunk →
      (get_audio_stream s id).map (fun r => r.2.curr_state) = some 1) ∧
    (v + s.chunk < buf.length →
      (get_audio_stream s id).map (fun r => r.2.curr_state) = some s.curr_state) := by
  obtain ⟨s', heq, hv', _, _, _, _, _, _, hstate⟩ := audio_stream_step s id v buf hv hb
  refine ⟨?_, ?_, ?_⟩
  · rw [heq]
    simp only [Option.map_some']
    rw [hv']
  · intro h
    rw [heq]
    simp only [Option.map_some']
    rw [hstate, if_pos h]
  · intro h
    rw [heq]
    simp only [Option.map_some']
    rw [hstate, if_neg (by omega)]

/-- Witness for the amended C4 on `c4state` at cursor 0. -/
theorem C4_cursor_advance_witness :
    (get_audio_stream c4state 2).map (fun r => (r.1, dlookup 2 r.2.custom_audio_index))
      = some ((([20, 21, 22, 23, 24] : List Int).drop 0).take c4state.chunk,
          some (0 + c4state.chunk)) ∧
    (get_audio_stream c4state 2).map (fun r => r.2.curr_state)
      = some c4state.curr_state :=
  ⟨(C4_cursor_advance c4state 2 0 [20, 21, 22, 23, 24] (by decide) (by decide)).1,
   (C4_cursor_advance c4state 2 0 [20, 21, 22, 23, 24] (by decide) (by decide)).2.2
     (by decide)⟩

/-! ### C2: frame retrieval with fallback -/

/-- A parent whose next retrieval exhausts its clip: custom source 2
active, 2-sample buffer, chunk length 2, cursor 0. -/
def c2exh : BaseRealState :=
  { chunk := 2, curr_state := 2, custom_img_cycle := [],
    custom_audio_cycle := [(2, [7, 8])],
    custom_audio_index := [(2, 0)], custom_index := [(2, 0)], custom_opt := [] }

/-- A system state on `c2exh` with an empty inbound queue. -/
def c2exhsys : SysState :=
  { asr := { chunk := 2, batch_size := 1, stride_left_size := 1,
             stride_right_size := 1, queue := [], output_queue := [],
             frames := [] },
    parent := some c2exh }

/-- C2 counterexample: on timeout with custom state 2 active, a retrieval
that exhausts the clip is tagged 1 (Silence), not the custom id 2 —
`frame_type = self.parent.curr_state` is read after `get_audio_stream`
has already flipped the state to 1, refuting "tagged with that custom
id". -/
theorem C2_exhaustion_tag_counterexample :
    c2exhsys.asr.queue = [] ∧
    c2exh.curr_state = 2 ∧
    (get_audio_frame c2exhsys).map (fun r => r.1)
      = some (([7, 8] : List Int), 1) ∧
    (1 : Nat) ≠ 2 := by
  decide

/-- C2 (amended): `get_audio_frame` returns the dequeued inbound chunk
tagged 0 (Inference) when the queue yields within the timeout; on timeout
(empty queue) with a parent in a custom state (`curr_state > 1`) it
returns the chunk produced by that source's `get_audio_stream`, tagged
with the parent's `curr_state` as read after the retrieval — the custom
id when the retrieval does not exhaust the clip, but 1 (Silence) when it
does; and on timeout otherwise it returns a zero-filled chunk of length
`chunk` tagged 1 (Silence). -/
theorem C2_get_audio_frame_cases (s : SysState) (p : BaseRealState)
    (hp : s.parent = some p) :
    (∀ f rest, s.asr.queue = f :: rest →
      get_audio_frame s = some ((f, 0), { s with asr := { s.asr with queue := rest } })) ∧
    (∀ ch p', s.asr.queue = [] → 1 < p.curr_state →
      get_audio_stream p p.curr_state = some (ch, p') →
      get_audio_frame s = some ((ch, p'.curr_state), { s with parent := some p' })) ∧
    (∀ v buf, s.asr.queue = [] → 1 < p.curr_state →
      dlookup p.curr_state p.custom_audio_index = some v →
      dlookup p.curr_state p.custom_audio_cycle = some buf →
      (v + p.chunk < buf.length →
        (get_audio_frame s).map (fun r => r.1.2) = some p.curr_state) ∧
      (buf.length ≤ v + p.chunk →
        (get_audio_frame s).map (fun r => r.1.2) = some 1)) ∧
    (s.asr.queue = [] → p.curr_state ≤ 1 →
      get_audio_frame s = some ((List.replicate s.asr.chunk 0, 1), s)) := by
  refine ⟨?_, ?_, ?_, ?_⟩
  · intro f rest hq
    simp only [get_audio_frame, hq]
  · intro ch p' hq hgt hgs
    simp only [get_audio_frame, hq, hp, if_pos hgt, hgs]
  · intro v buf hq hgt hv hb
    obtain ⟨p', heq, hv', hne', hcyc', himg', hidx', hopt', hchunk', hstate⟩ :=
      audio_stream_step p p.curr_state v buf hv hb
    constructor
    · intro hlt
      simp only [get_audio_frame, hq, hp, if_pos hgt, heq, Option.map_some']
      rw [hstate, if_neg (by omega)]
    · intro hge
      simp only [get_audio_frame, hq, hp, if_pos hgt, heq, Option.map_some']
      rw [hstate, if_pos hge]
  · intro hq hle
    simp only [get_audio_frame, hq, hp, if_neg (show ¬ 1 < p.curr_state by omega)]

/-- A concrete parent for the C2 witness: custom source 2 active, 3-sample
buffer, chunk length 2, cursor 0. -/
def c2real : BaseRealState :=
  { chunk := 2, curr_state := 2, custom_img_cycle := [],
    custom_audio_cycle := [(2, [7, 8, 9])],
    custom_audio_index := [(2, 0)], custom_index := [(2, 0)], custom_opt := [] }

/-- `c2real` after one retrieval: cursor advanced to 2, state unchanged. -/
def c2real' : BaseRealState :=
  { chunk := 2, curr_state := 2, custom_img_cycle := [],
    custom_audio_cycle := [(2, [7, 8, 9])],
    custom_audio_index := [(2, 2)], custom_index := [(2, 0)], custom_opt := [] }

/-- A concrete system state for the C2 witness: empty inbound queue,
parent `c2real` in custom state 2. -/
def c2sys : SysState :=
  { asr := { chunk := 2, batch_size := 1, stride_left_size := 1,
             stride_right_size := 1, queue := [], output_queue := [],
             frames := [] },
    parent := some c2real }

/-- Witness for the amended C2: on timeout with custom state 2 active and
a non-exhausting retrieval (cursor 0 of 3 samples, chunk 2), the frame
comes from source 2's retrieval (`[7, 8]`) and the post-retrieval state —
hence the tag — is still the custom id 2. -/
theorem C2_get_audio_frame_cases_witness :
    get_audio_frame c2sys
      = some ((([7, 8] : List Int), 2), { c2sys with parent := some c2real' }) :=
  (C2_get_audio_frame_cases c2sys c2real rfl).2.1 [7, 8] c2real' rfl (by decide)
    (by decide)

/-! ### C7: misconfiguration handling -/

/-- C7 counterexample: on a state with no registered custom sources at all,
`set_curr_state 5 reinit=true` is silently accepted — it sets the playback
state to 5 and even creates zero cursors for the unknown id — rather than
raising an error: requesting an unknown custom id is never rejected at
command time. -/
theorem C7_unknown_id_counterexample :
    dlookup 5 (emptyReal 3).custom_audio_index = none ∧
    (set_curr_state (emptyReal 3) 5 true).curr_state = 5 ∧
    dlookup 5 (set_curr_state (emptyReal 3) 5 true).custom_audio_index = some 0 ∧
    dlookup 5 (set_curr_state (emptyReal 3) 5 true).custom_index = some 0 := by
  decide

/-- C7 (amended): `set_curr_state` performs no membership check: any id,
registered or not, is silently accepted — `curr_state` becomes that id and,
with `reinit`, fresh zero cursors are created for it (Python dict
assignment never raises).  The TTS half of the claim does hold: an
unrecognized engine name raises a descriptive `ValueError` at construction
time. -/
theorem C7_misconfig_behavior (s : BaseRealState) (id : Nat) (t : String)
    (h1 : t ≠ "edgetts") (h2 : t ≠ "gpt-sovits") (h3 : t ≠ "xtts") :
    (set_curr_state s id true).curr_state = id ∧
    dlookup id (set_curr_state s id true).custom_audio_index = some 0 ∧
    dlookup id (set_curr_state s id true).custom_index = some 0 ∧
    (set_curr_state s id false).curr_state = id ∧
    initTTS t = Except.error
      ("Unknown TTS type: " ++ t ++ ". Supported types: edgetts, gpt-sovits, xtts") := by
  refine ⟨rfl, dlookup_dset_self _ _ _, dlookup_dset_self _ _ _, rfl, ?_⟩
  simp only [initTTS, if_neg h1, if_neg h2, if_neg h3]

/-- Witness for the amended C7 at id 7 on an empty state and the engine
name "foo". -/
theorem C7_misconfig_behavior_witness :
    (set_curr_state (emptyReal 3) 7 true).curr_state = 7 ∧
    dlookup 7 (set_curr_state (emptyReal 3) 7 true).custom_audio_index = some 0 ∧
    dlookup 7 (set_curr_state (emptyReal 3) 7 true).custom_index = some 0 ∧
    (set_curr_state (emptyReal 3) 7 false).curr_state = 7 ∧
    initTTS "foo" = Except.error
      ("Unknown TTS type: " ++ "foo" ++ ". Supported types: edgetts, gpt-sovits, xtts") :=
  C7_misconfig_behavior (emptyReal 3) 7 "foo" (by decide) (by decide) (by decide)

/-! ### C9: discarding pending input -/

/-- C9: `pause_talk` empties the inbound queue and changes nothing else —
the parent (hence `curr_state` and every custom source's audio and image
cursor), the frames buffer, the output channel and all parameters are
untouched. -/
theorem C9_pause_talk_effect (s : SysState) :
    (pause_talk s).asr.queue = [] ∧
    (pause_talk s).parent = s.parent ∧
    (pause_talk s).asr.frames = s.asr.frames ∧
    (pause_talk s).asr.output_queue = s.asr.output_queue ∧
    (pause_talk s).asr.chunk = s.asr.chunk ∧
    (pause_talk s).asr.batch_size = s.asr.batch_size ∧
    (pause_talk s).asr.stride_left_size = s.asr.stride_left_size ∧
    (pause_talk s).asr.stride_right_size = s.asr.stride_right_size :=
  ⟨rfl, rfl, rfl, rfl, rfl, rfl, rfl, rfl⟩

/-! ### C10: resume without reinit -/

/-- C10: `set_curr_state id reinit=false` on a registered id changes only
`curr_state`: every dictionary — in particular source id's own audio and
image cursors — is left exactly as it was, so switching back to the source
resumes from the saved offsets. -/
theorem C10_set_curr_state_resume (s : BaseRealState) (id : Nat)
    (hreg : (dlookup id s.custom_audio_index).isSome = true) :
    (set_curr_state s id false).curr_state = id ∧
    (set_curr_state s id false).custom_audio_index = s.custom_audio_index ∧
    (set_curr_state s id false).custom_index = s.custom_index ∧
    (set_curr_state s id false).custom_audio_cycle = s.custom_audio_cycle ∧
    (set_curr_state s id false).custom_img_cycle = s.custom_img_cycle ∧
    (set_curr_state s id false).custom_opt = s.custom_opt ∧
    (set_curr_state s id false).chunk = s.chunk :=
  ⟨rfl, rfl, rfl, rfl, rfl, rfl, rfl⟩

/-- Witness for C10 on `c2real` (source 2 is registered with saved
cursor 0). -/
theorem C10_set_curr_state_resume_witness :
    (set_curr_state c2real 2 false).curr_state = 2 ∧
    (set_curr_state c2real 2 false).custom_audio_index = c2real.custom_audio_index ∧
    (set_curr_state c2real 2 false).custom_index = c2real.custom_index ∧
    (set_curr_state c2real 2 false).custom_audio_cycle = c2real.custom_audio_cycle ∧
    (set_curr_state c2real 2 false).custom_img_cycle = c2real.custom_img_cycle ∧
    (set_curr_state c2real 2 false).custom_opt = c2real.custom_opt ∧
    (set_curr_state c2real 2 false).chunk = c2real.chunk :=
  C10_set_curr_state_resume c2real 2 (by decide)

/-! ### C5: warm-up accounting -/

theorem get_audio_frame_effect (s : SysState) (r : (List Int × Nat) × SysState)
    (h : get_audio_frame s = some r) :
    r.2.asr.frames = s.asr.frames ∧
    r.2.asr.output_queue = s.asr.output_queue ∧
    r.2.asr.stride_left_size = s.asr.stride_left_size ∧
    r.2.asr.stride_right_size = s.asr.stride_right_size ∧
    r.2.asr.chunk = s.asr.chunk ∧
    r.2.asr.batch_size = s.asr.batch_size := by
  cases hq : s.asr.queue with
  | cons f rest =>
    simp only [get_audio_frame, hq] at h
    obtain rfl := (Option.some.inj h).symm
    exact ⟨rfl, rfl, rfl, rfl, rfl, rfl⟩
  | nil =>
    simp only [get_audio_frame, hq] at h
    cases hp : s.parent with
    | none =>
      simp only [hp] at h
      obtain rfl := (Option.some.inj h).symm
      exact ⟨rfl, rfl, rfl, rfl, rfl, rfl⟩
    | some p =>
      simp only [hp] at h
      by_cases hgt : 1 < p.curr_state
      · rw [if_pos hgt] at h
        cases hgs : get_audio_stream p p.curr_state with
        | none =>
          simp only [hgs] at h
          exact Option.noConfusion h
        | some pr =>
          obtain ⟨ch, p1⟩ := pr
          simp only [hgs] at h
          obtain rfl := (Option.some.inj h).symm
          exact ⟨rfl, rfl, rfl, rfl, rfl, rfl⟩
      · rw [if_neg hgt] at h
        obtain rfl := (Option.some.inj h).symm
        exact ⟨rfl, rfl, rfl, rfl, rfl, rfl⟩

theorem warm_up_fill_spec (n : Nat) :
    ∀ s s', warm_up_fill n s = some s' →
    ∃ pairs : List (List Int × Nat),
      pairs.length = n ∧
      s'.asr.frames = s.asr.frames ++ pairs.map Prod.fst ∧
      s'.asr.output_queue = s.asr.output_queue ++ pairs ∧
      s'.asr.stride_left_size = s.asr.stride_left_size ∧
      s'.asr.stride_right_size = s.asr.stride_right_size ∧
      s'.asr.chunk = s.asr.chunk ∧
      s'.asr.batch_size = s.asr.batch_size := by
  induction n with
  | zero =>
    intro s s' h
    simp only [warm_up_fill, Option.some.injEq] at h
    subst h
    exact ⟨[], rfl, by simp, by simp, rfl, rfl, rfl, rfl⟩
  | succ n ih =>
    intro s s' h
    simp only [warm_up_fill] at h
    cases hg : get_audio_frame s with
    | none =>
      simp only [hg] at h
      exact Option.noConfusion h
    | some r =>
      simp only [hg] at h
      obtain ⟨hf, ho, hl, hr, hc, hb⟩ := get_audio_frame_effect s r hg
      obtain ⟨pairs, hplen, hpf, hpo, hpl, hpr, hpc, hpb⟩ := ih _ s' h
      refine ⟨r.1 :: pairs, by simp [hplen], ?_, ?_, ?_, ?_, ?_, ?_⟩
      · rw [hpf]
        simp [hf, List.append_assoc]
      · rw [hpo]
        simp [ho, List.append_assoc]
      · rw [hpl]
        exact hl
      · rw [hpr]
        exact hr
      · rw [hpc]
        exact hc
      · rw [hpb]
        exact hb

theorem drainOutput_spec (n : Nat) :
    ∀ s s', drainOutput n s = some s' →
      s'.asr.output_queue = s.asr.output_queue.drop n ∧
      n ≤ s.asr.output_queue.length ∧
      s'.asr.frames = s.asr.frames ∧
      s'.asr.stride_left_size = s.asr.stride_left_size ∧
      s'.asr.stride_right_size = s.asr.stride_right_size ∧
      s'.asr.chunk = s.asr.chunk ∧
      s'.asr.batch_size = s.asr.batch_size := by
  induction n with
  | zero =>
    intro s s' h
    simp only [drainOutput, Option.some.injEq] at h
    subst h
    exact ⟨rfl, Nat.zero_le _, rfl, rfl, rfl, rfl, rfl⟩
  | succ n ih =>
    intro s s' h
    simp only [drainOutput] at h
    cases hq : s.asr.output_queue with
    | nil =>
      simp only [hq] at h
      exact Option.noConfusion h
    | cons a rest =>
      simp only [hq] at h
      obtain ⟨h1, h2, h3, h4, h5, h6, h7⟩ := ih _ s' h
      refine ⟨?_, ?_, by simpa using h3, by simpa using h4, by simpa using h5,
        by simpa using h6, by simpa using h7⟩
      · rw [List.drop_succ_cons]
        simpa using h1
      · have h2' : n ≤ rest.length := by simpa using h2
        simp only [List.length_cons]
        omega

/-- C5: starting from empty `frames` and `output_queue`, a successful
`warm_up` pulls exactly `stride_left_size + stride_right_size` chunks:
afterwards the frames buffer holds that many chunks and the output channel
holds exactly `stride_right_size` pairs — each pulled pair was published to
the channel and the first `stride_left_size` of them were then drained. -/
theorem C5_warm_up_priming (s s' : SysState)
    (hframes : s.asr.frames = [])
    (hout : s.asr.output_queue = [])
    (hw : warm_up s = some s') :
    s'.asr.frames.length = s.asr.stride_left_size + s.asr.stride_right_size ∧
    s'.asr.output_queue.length = s.asr.stride_right_size ∧
    ∃ pairs : List (List Int × Nat),
      pairs.length = s.asr.stride_left_size + s.asr.stride_right_size ∧
      s'.asr.frames = pairs.map Prod.fst ∧
      s'.asr.output_queue = pairs.drop s.asr.stride_left_size := by
  simp only [warm_up] at hw
  cases hf : warm_up_fill (s.asr.stride_left_size + s.asr.stride_right_size) s with
  | none =>
    simp only [hf] at hw
    exact Option.noConfusion hw
  | some s1 =>
    simp only [hf] at hw
    obtain ⟨pairs, hplen, hpf, hpo, _, _, _, _⟩ :=
      warm_up_fill_spec _ s s1 hf
    obtain ⟨hdq, hdlen, hdframes, _, _, _, _⟩ := drainOutput_spec _ s1 s' hw
    have hframes' : s'.asr.frames = pairs.map Prod.fst := by
      rw [hdframes, hpf, hframes, List.nil_append]
    have hout' : s'.asr.output_queue = pairs.drop s.asr.stride_left_size := by
      rw [hdq, hpo, hout, List.nil_append]
    refine ⟨?_, ?_, pairs, hplen, hframes', hout'⟩
    · rw [hframes', List.length_map, hplen]
    · rw [hout', List.length_drop, hplen]
      omega

/-- A concrete system for the C5 witness: strides 1/1, chunk 2, no parent,
empty queues. -/
def c5sys : SysState :=
  { asr := { chunk := 2, batch_size := 1, stride_left_size := 1,
             stride_right_size := 1, queue := [], output_queue := [],
             frames := [] },
    parent := none }

/-- `c5sys` after `warm_up`: two silence chunks pulled into `frames`, both
published, the first then drained. -/
def c5sys' : SysState :=
  { asr := { chunk := 2, batch_size := 1, stride_left_size := 1,
             stride_right_size := 1, queue := [],
             output_queue := [([0, 0], 1)],
             frames := [[0, 0], [0, 0]] },
    parent := none }

/-- Witness for C5 on `c5sys`. -/
theorem C5_warm_up_priming_witness :
    c5sys'.asr.frames.length
        = c5sys.asr.stride_left_size + c5sys.asr.stride_right_size ∧
    c5sys'.asr.output_queue.length = c5sys.asr.stride_right_size :=
  ⟨(C5_warm_up_priming c5sys c5sys' rfl rfl (by decide)).1,
   (C5_warm_up_priming c5sys c5sys' rfl rfl (by decide)).2.1⟩

/-! ### C8: asset-loading failure isolation -/

theorem loadOne_other (s : BaseRealState) (item : CustomSpec) (k : Nat)
    (hk : k ≠ item.audiotype) :
    dlookup k (loadOne s item).custom_img_cycle = dlookup k s.custom_img_cycle ∧
    dlookup k (loadOne s item).custom_audio_cycle = dlookup k s.custom_audio_cycle ∧
    dlookup k (loadOne s item).custom_audio_index = dlookup k s.custom_audio_index ∧
    dlookup k (loadOne s item).custom_index = dlookup k s.custom_index ∧
    dlookup k (loadOne s item).custom_opt = dlookup k s.custom_opt := by
  cases himg : item.imgLoad with
  | none =>
    simp [loadOne, himg]
  | some imgs =>
    cases haud : item.audioLoad with
    | none =>
      simp [loadOne, himg, haud, dlookup_dset_ne _ _ _ _ hk]
    | some buf =>
      simp [loadOne, himg, haud, dlookup_dset_ne _ _ _ _ hk]

theorem loadcustom_not_mem (specs : List CustomSpec) :
    ∀ (s : BaseRealState) (k : Nat), k ∉ specs.map CustomSpec.audiotype →
    dlookup k (loadcustom s specs).custom_img_cycle = dlookup k s.custom_img_cycle ∧
    dlookup k (loadcustom s specs).custom_audio_cycle = dlookup k s.custom_audio_cycle ∧
    dlookup k (loadcustom s specs).custom_audio_index = dlookup k s.custom_audio_index ∧
    dlookup k (loadcustom s specs).custom_index = dlookup k s.custom_index ∧
    dlookup k (loadcustom s specs).custom_opt = dlookup k s.custom_opt := by
  induction specs with
  | nil =>
    intro s k h
    exact ⟨rfl, rfl, rfl, rfl, rfl⟩
  | cons item rest ih =>
    intro s k h
    simp only [List.map_cons, List.mem_cons] at h
    push_neg at h
    obtain ⟨h1, h2⟩ := h
    obtain ⟨g1, g2, g3, g4, g5⟩ := loadOne_other s item k h1
    obtain ⟨f1, f2, f3, f4, f5⟩ := ih (loadOne s item) k h2
    exact ⟨f1.trans g1, f2.trans g2, f3.trans g3, f4.trans g4, f5.trans g5⟩

theorem loadOne_self_fail (s : BaseRealState) (item : CustomSpec)
    (hfail : item.imgLoad = none ∨ item.audioLoad = none) :
    dlookup item.audiotype (loadOne s item).custom_audio_cycle
      = dlookup item.audiotype s.custom_audio_cycle ∧
    dlookup item.audiotype (loadOne s item).custom_audio_index
      = dlookup item.audiotype s.custom_audio_index ∧
    dlookup item.audiotype (loadOne s item).custom_index
      = dlookup item.audiotype s.custom_index ∧
    dlookup item.audiotype (loadOne s item).custom_opt
      = dlookup item.audiotype s.custom_opt := by
  cases himg : item.imgLoad with
  | none =>
    simp [loadOne, himg]
  | some imgs =>
    have haud : item.audioLoad = none := by
      rcases hfail with h | h
      · rw [himg] at h
        exact Option.noConfusion h
      · exact h
    simp [loadOne, himg, haud]

theorem loadOne_self_ok (s : BaseRealState) (item : CustomSpec)
    (imgs : List Nat) (buf : List Int)
    (himg : item.imgLoad = some imgs) (haud : item.audioLoad = some buf) :
    dlookup item.audiotype (loadOne s item).custom_img_cycle = some imgs ∧
    dlookup item.audiotype (loadOne s item).custom_audio_cycle = some buf ∧
    dlookup item.audiotype (loadOne s item).custom_audio_index = some 0 ∧
    dlookup item.audiotype (loadOne s item).custom_index = some 0 ∧
    dlookup item.audiotype (loadOne s item).custom_opt = some item := by
  simp only [loadOne, himg, haud]
  exact ⟨dlookup_dset_self _ _ _, dlookup_dset_self _ _ _,
    dlookup_dset_self _ _ _, dlookup_dset_self _ _ _, dlookup_dset_self _ _ _⟩

theorem loadOne_self_img (s : BaseRealState) (item : CustomSpec)
    (imgs : List Nat) (himg : item.imgLoad = some imgs) :
    dlookup item.audiotype (loadOne s item).custom_img_cycle = some imgs := by
  cases haud : item.audioLoad with
  | none =>
    simp only [loadOne, himg, haud]
    exact dlookup_dset_self _ _ _
  | some buf =>
    simp only [loadOne, himg, haud]
    exact dlookup_dset_self _ _ _

theorem loadcustom_append (s : BaseRealState) (l1 l2 : List CustomSpec) :
    loadcustom s (l1 ++ l2) = loadcustom (loadcustom s l1) l2 := by
  simp [loadcustom, List.foldl_append]

/-- C8 counterexample: a single spec whose images load but whose audio read
fails is not raised and not fully registered — but its id *is* left
registered in the images dictionary, because `__loadcustom` assigns
`custom_img_cycle` before reading the audio.  This refutes "does not
register that id in any of the custom dictionaries". -/
theorem C8_partial_registration_counterexample :
    dlookup 2 (loadcustom (emptyReal 3)
        [{ audiotype := 2, imgLoad := some [100], audioLoad := none }]).custom_img_cycle
      = some [100] ∧
    dlookup 2 (loadcustom (emptyReal 3)
        [{ audiotype := 2, imgLoad := some [100], audioLoad := none }]).custom_audio_cycle
      = none := by
  decide

/-- C8 (amended): loading is total (a failing spec never raises) and
isolated per id: a spec whose image or audio load fails is never registered
in the audio, audio-cursor, image-cursor or options dictionaries — though
when the images loaded and only the audio failed, the id does remain in the
images dictionary — and every spec whose two loads succeed is fully
registered with zero cursors.  (Spec ids assumed pairwise distinct.) -/
theorem C8_load_isolation (c : Nat) (pre post : List CustomSpec)
    (item : CustomSpec) (res : BaseRealState)
    (hres : res = loadcustom (emptyReal c) (pre ++ item :: post))
    (hnodup : ((pre ++ item :: post).map CustomSpec.audiotype).Nodup) :
    ((item.imgLoad = none ∨ item.audioLoad = none) →
      dlookup item.audiotype res.custom_audio_cycle = none ∧
      dlookup item.audiotype res.custom_audio_index = none ∧
      dlookup item.audiotype res.custom_index = none ∧
      dlookup item.audiotype res.custom_opt = none) ∧
    (∀ imgs, item.imgLoad = some imgs →
      dlookup item.audiotype res.custom_img_cycle = some imgs) ∧
    (∀ imgs buf, item.imgLoad = some imgs → item.audioLoad = some buf →
      dlookup item.audiotype res.custom_img_cycle = some imgs ∧
      dlookup item.audiotype res.custom_audio_cycle = some buf ∧
      dlookup item.audiotype res.custom_audio_index = some 0 ∧
      dlookup item.audiotype res.custom_index = some 0 ∧
      dlookup item.audiotype res.custom_opt = some item) := by
  subst hres
  have hmaps : ((pre.map CustomSpec.audiotype)
      ++ item.audiotype :: post.map CustomSpec.audiotype).Nodup := by
    simpa using hnodup
  rw [List.nodup_append] at hmaps
  obtain ⟨hpre, hcons, hdisj⟩ := hmaps
  rw [List.nodup_cons] at hcons
  obtain ⟨hnotpost, _⟩ := hcons
  have hnotpre : item.audiotype ∉ pre.map CustomSpec.audiotype := by
    intro hmem
    exact hdisj hmem (List.mem_cons_self _ _)
  rw [loadcustom_append]
  have hstep : loadcustom (loadcustom (emptyReal c) pre) (item :: post)
      = loadcustom (loadOne (loadcustom (emptyReal c) pre) item) post := rfl
  rw [hstep]
  obtain ⟨p1, p2, p3, p4, p5⟩ :=
    loadcustom_not_mem post (loadOne (loadcustom (emptyReal c) pre) item)
      item.audiotype hnotpost
  obtain ⟨q1, q2, q3, q4, q5⟩ :=
    loadcustom_not_mem pre (emptyReal c) item.audiotype hnotpre
  refine ⟨?_, ?_, ?_⟩
  · intro hfail
    obtain ⟨f2, f3, f4, f5⟩ :=
      loadOne_self_fail (loadcustom (emptyReal c) pre) item hfail
    exact ⟨p2.trans (f2.trans q2), p3.trans (f3.trans q3),
      p4.trans (f4.trans q4), p5.trans (f5.trans q5)⟩
  · intro imgs himg
    exact p1.trans (loadOne_self_img _ item imgs himg)
  · intro imgs buf himg haud
    obtain ⟨g1, g2, g3, g4, g5⟩ :=
      loadOne_self_ok (loadcustom (emptyReal c) pre) item imgs buf himg haud
    exact ⟨p1.trans g1, p2.trans g2, p3.trans g3, p4.trans g4, p5.trans g5⟩

/-- A spec that loads completely (id 2). -/
def c8ok1 : CustomSpec :=
  { audiotype := 2, imgLoad := some [100], audioLoad := some [1, 2] }

/-- A spec whose audio read fails (id 3). -/
def c8bad : CustomSpec :=
  { audiotype := 3, imgLoad := some [101], audioLoad := none }

/-- A spec that loads completely (id 4). -/
def c8ok2 : CustomSpec :=
  { audiotype := 4, imgLoad := some [102], audioLoad := some [3] }

/-- Witness for the amended C8: with specs `[c8ok1, c8bad, c8ok2]`, the
failing id 3 is absent from the audio, cursor and options dictionaries. -/
theorem C8_load_isolation_witness :
    dlookup 3 (loadcustom (emptyReal 3) [c8ok1, c8bad, c8ok2]).custom_audio_cycle = none ∧
    dlookup 3 (loadcustom (emptyReal 3) [c8ok1, c8bad, c8ok2]).custom_audio_index = none ∧
    dlookup 3 (loadcustom (emptyReal 3) [c8ok1, c8bad, c8ok2]).custom_index = none ∧
    dlookup 3 (loadcustom (emptyReal 3) [c8ok1, c8bad, c8ok2]).custom_opt = none :=
  (C8_load_isolation 3 [c8ok1] [c8ok2] c8bad
    (loadcustom (emptyReal 3) [c8ok1, c8bad, c8ok2]) rfl (by decide)).1 (Or.inr rfl)
